import Mathlib

/-
Shallow embedding of the BLE-LoRA-Adapter wire protocol and message-routing
logic.

Sources embedded:
  - src/main/protocol/inc/hr_data.tpp        (HrLoRa::hr_data codec)
  - src/main/protocol/inc/hr_lora.h          (HrLoRa::hr_lora_msg tagged codec)
  - src/main/src/app_main.cpp                (handle_message dispatcher,
                                              scan_manager.on_data forward path)

Byte buffers are modelled as `List Nat` (each entry one byte) when the length
is the received/encoded size, and as a total function `Nat → Nat` together
with an explicit size when the C code holds a raw pointer whose underlying
storage extends past the received size (the 255-byte receive buffer in
recv_task).  `marshal` functions take the destination buffer and return the
pair (bytes written, new buffer contents); a failed marshal returns 0 and the
unchanged buffer, as in the C code.
-/

namespace HrLoRa

/-- Modelled from the spec: `HrLoRa::addr_t`, a fixed 6-byte BLE address
(declared in the repository header hr_lora_common.tpp, which is not among the
available sources; spec section 3 fixes the length to 6 bytes). -/
structure addr_t where
  a0 : Nat
  a1 : Nat
  a2 : Nat
  a3 : Nat
  a4 : Nat
  a5 : Nat
deriving DecidableEq

/-- Byte sequence of an address, in wire order. -/
def addr_t.toList (a : addr_t) : List Nat :=
  [a.a0, a.a1, a.a2, a.a3, a.a4, a.a5]

/-- Modelled from the spec: `HrLoRa::broadcast_addr`, the reserved all-ones
broadcast address (hr_lora_common.tpp is not among the available sources;
spec section 3 calls it the all-ones address). -/
def broadcast_addr : addr_t := ⟨0xff, 0xff, 0xff, 0xff, 0xff, 0xff⟩

/-- Modelled from the spec: `HrLoRa::name_map_key_t` is a single byte
(spec section 3: "Name-Map Key — a single byte"). -/
abbrev name_map_key_t := Nat

/-- Overwrite the first `bytes.length` cells of `buffer` with `bytes`,
leaving the rest untouched; this is what the C marshal routines do with
their destination pointer. -/
def writeBytes (buffer bytes : List Nat) : List Nat :=
  bytes ++ buffer.drop bytes.length

namespace hr_data

/-- Discriminant of hr_data frames (hr_data.tpp line 12). -/
def magic : Nat := 0x63

/-- Fields of an hr_data message (hr_data.tpp lines 13-16). -/
structure t where
  key : Nat
  hr : Nat
deriving DecidableEq

/-- Exact frame size: magic + key + hr (hr_data.tpp lines 17-20). -/
def size_needed : Nat := 3

/-- Embeds hr_data::marshal (hr_data.tpp lines 21-29): rejects a buffer
smaller than `size_needed`, otherwise writes magic, key, hr at offsets
0, 1, 2 and returns `size_needed`. -/
def marshal (data : t) (buffer : List Nat) : Nat × List Nat :=
  if buffer.length < size_needed then (0, buffer)
  else (size_needed, writeBytes buffer [magic, data.key, data.hr])

/-- Embeds hr_data::unmarshal (hr_data.tpp lines 30-44): size check, magic
check, then reads key and hr. -/
def unmarshal (l : List Nat) : Option t :=
  if l.length < size_needed then none
  else if l.getD 0 0 ≠ magic then none
  else some ⟨l.getD 1 0, l.getD 2 0⟩

end hr_data

namespace query_device_by_mac

/-- Modelled from the spec: the discriminant of query_device_by_mac frames
(query_device_by_mac.tpp is not among the available sources; spec section 6
leaves the value impl-defined but disjoint from the other three). -/
def magic : Nat := 0x64

/-- Modelled from the spec: a query carries one target address
(spec section 3: `QueryByAddress` carries {target Address}). -/
structure t where
  addr : addr_t
deriving DecidableEq

/-- Modelled from the spec: exact frame size, discriminant + 6-byte address
(spec section 4.1). -/
def size_needed : Nat := 7

/-- Modelled from the spec: encoder writing discriminant then the address,
returning 0 on a too-small buffer (spec section 4.1 contract). -/
def marshal (data : t) (buffer : List Nat) : Nat × List Nat :=
  if buffer.length < size_needed then (0, buffer)
  else (size_needed, writeBytes buffer (magic :: data.addr.toList))

/-- Modelled from the spec: decoder failing on a short buffer or wrong
discriminant, otherwise reading the 6 address bytes (spec section 4.1). -/
def unmarshal (l : List Nat) : Option t :=
  if l.length < size_needed then none
  else if l.getD 0 0 ≠ magic then none
  else some ⟨⟨l.getD 1 0, l.getD 2 0, l.getD 3 0, l.getD 4 0, l.getD 5 0, l.getD 6 0⟩⟩

end query_device_by_mac

namespace hr_device

/-- Modelled from the spec: maximum stored length of a device name field
("bounded-length text", spec section 3; a name longer than the field is
truncated, not failed, spec section 8). The header defining the bound is not
among the available sources; the concrete bound is chosen here. -/
def max_name_len : Nat := 16

/-- Modelled from the spec: `HrLoRa::hr_device::t`, a discovered-device
snapshot {address, name} (used at app_main.cpp lines 84-86; its defining
header is not among the available sources). The name is kept as its bytes. -/
structure t where
  addr : addr_t
  name : List Nat
deriving DecidableEq

end hr_device

namespace query_device_by_mac_response

/-- Modelled from the spec: the discriminant of the response frames
(set implementation header not among the available sources; impl-defined,
disjoint). -/
def magic : Nat := 0x65

/-- Modelled from the spec: a response carries the responder address, the
name-map key, and an optional discovered device (spec section 3). -/
structure t where
  repeater_addr : addr_t
  key : Nat
  device : Option hr_device.t
deriving DecidableEq

/-- Modelled from the spec: the device part of the frame — a presence flag,
then (only when present) address, name length, name bytes (spec section 4.1).
A name longer than `hr_device.max_name_len` is truncated, not failed
(spec section 8). -/
def device_bytes : Option hr_device.t → List Nat
  | none => [0]
  | some d =>
    let nm := d.name.take hr_device.max_name_len
    1 :: (d.addr.toList ++ nm.length :: nm)

/-- Modelled from the spec: exact frame size — discriminant + responder
address + key + device part. -/
def size_needed (m : t) : Nat := 8 + (device_bytes m.device).length

/-- Modelled from the spec: encoder writing discriminant, responder address,
key, presence flag and (when present) the device fields, returning 0 on a
too-small buffer (spec section 4.1 contract). -/
def marshal (m : t) (buffer : List Nat) : Nat × List Nat :=
  if buffer.length < size_needed m then (0, buffer)
  else (size_needed m,
        writeBytes buffer (magic :: m.repeater_addr.toList ++ m.key :: device_bytes m.device))

/-- Modelled from the spec: decoder — fails below the 9-byte minimum or on a
wrong discriminant; a presence flag of 0 ends the frame (decode must not read
past the flag, spec section 4.3), a flag of 1 requires the device fields. -/
def unmarshal (l : List Nat) : Option t :=
  if l.length < 9 then none
  else if l.getD 0 0 ≠ magic then none
  else
    let ra : addr_t := ⟨l.getD 1 0, l.getD 2 0, l.getD 3 0, l.getD 4 0, l.getD 5 0, l.getD 6 0⟩
    let key := l.getD 7 0
    let flag := l.getD 8 0
    if flag = 0 then some ⟨ra, key, none⟩
    else if flag = 1 then
      if l.length < 16 then none
      else
        let da : addr_t := ⟨l.getD 9 0, l.getD 10 0, l.getD 11 0, l.getD 12 0, l.getD 13 0, l.getD 14 0⟩
        let nlen := l.getD 15 0
        if l.length < 16 + nlen then none
        else some ⟨ra, key, some ⟨da, (l.drop 16).take nlen⟩⟩
    else none

end query_device_by_mac_response

namespace set_name_map_key

/-- Modelled from the spec: the discriminant of set_name_map_key frames
(set_name_map_key.tpp is not among the available sources; impl-defined,
disjoint). -/
def magic : Nat := 0x66

/-- Modelled from the spec: the message carries one key byte
(spec section 3: `SetNameMapKey` carries {key: byte}). -/
structure t where
  key : Nat
deriving DecidableEq

/-- Modelled from the spec: exact frame size, discriminant + key
(spec section 4.1: 2 bytes). -/
def size_needed : Nat := 2

/-- Modelled from the spec: encoder writing discriminant then key, returning
0 on a too-small buffer (spec section 4.1 contract). -/
def marshal (data : t) (buffer : List Nat) : Nat × List Nat :=
  if buffer.length < size_needed then (0, buffer)
  else (size_needed, writeBytes buffer [magic, data.key])

/-- Modelled from the spec: decoder failing on a short buffer or wrong
discriminant, otherwise reading the key (spec section 4.1). -/
def unmarshal (l : List Nat) : Option t :=
  if l.length < size_needed then none
  else if l.getD 0 0 ≠ magic then none
  else some ⟨l.getD 1 0⟩

end set_name_map_key

namespace hr_lora_msg

/-- Embeds `HrLoRa::hr_lora_msg::t` (hr_lora.h lines 19-23): the closed
variant over the four message kinds. -/
inductive t
  | hr_data (d : HrLoRa.hr_data.t)
  | query_device_by_mac (q : HrLoRa.query_device_by_mac.t)
  | query_device_by_mac_response (r : HrLoRa.query_device_by_mac_response.t)
  | set_name_map_key (s : HrLoRa.set_name_map_key.t)
deriving DecidableEq

/-- Embeds hr_lora_msg::marshal (hr_lora.h lines 38-54): visit the variant
and call the kind's marshal. -/
def marshal : t → List Nat → Nat × List Nat
  | .hr_data d, b => HrLoRa.hr_data.marshal d b
  | .query_device_by_mac q, b => HrLoRa.query_device_by_mac.marshal q b
  | .query_device_by_mac_response r, b => HrLoRa.query_device_by_mac_response.marshal r b
  | .set_name_map_key s, b => HrLoRa.set_name_map_key.marshal s b

/-- Embeds hr_lora_msg::unmarshal (hr_lora.h lines 63-102): reject an empty
buffer, then switch on the first byte and delegate to the kind's unmarshal,
wrapping a success into the variant. -/
def unmarshal (l : List Nat) : Option t :=
  if l.length < 1 then none
  else
    let magic := l.getD 0 0
    if magic = HrLoRa.hr_data.magic then
      (HrLoRa.hr_data.unmarshal l).map t.hr_data
    else if magic = HrLoRa.query_device_by_mac.magic then
      (HrLoRa.query_device_by_mac.unmarshal l).map t.query_device_by_mac
    else if magic = HrLoRa.query_device_by_mac_response.magic then
      (HrLoRa.query_device_by_mac_response.unmarshal l).map t.query_device_by_mac_response
    else if magic = HrLoRa.set_name_map_key.magic then
      (HrLoRa.set_name_map_key.unmarshal l).map t.set_name_map_key
    else none

end hr_lora_msg

end HrLoRa

namespace blue

/-- Modelled from the spec: `blue::HeartMonitor`, the discovered-device
snapshot returned by `scan_manager.get_device()` — address plus bounded name
(spec section 3, "Discovered Device"; the defining header scan_manager.h is
not among the available sources). The name is kept as its bytes. -/
structure HeartMonitor where
  addr : HrLoRa.addr_t
  name : List Nat
deriving DecidableEq

end blue

/-- Null-ness of the four dispatcher callbacks (app_main.cpp lines 37-42):
each field is true when the corresponding `std::function` is non-null. The
behaviour of the non-null callbacks is supplied to `handle_message` as
explicit state (own address, device snapshot, key state). -/
structure handle_message_callbacks_t where
  send : Bool
  get_device : Bool
  set_name_map_key : Bool
  get_name_map_key : Bool
deriving DecidableEq

/-- Log events emitted by the dispatcher, one constructor per ESP_LOG call
site in handle_message (app_main.cpp lines 50-120). -/
inductive RecvLog
  | cb_empty
  | unmarshal_query_failed
  | not_for_me (a : HrLoRa.addr_t)
  | marshal_resp_failed
  | unmarshal_set_failed
  | set_key_done (k : Nat)
  | unknown_magic (m : Nat)
deriving DecidableEq

/-- Mutable state touched by the dispatcher: the in-memory name-map key
(the static `name_map_key` of app_main.cpp line 143, written through the
set_name_map_key callback, line 235) and the durable name-map key.
Modelled from the spec: `app_nvs::set_name_map_key` (app_nvs is not among
the available sources) persists the key to durable storage
(spec section 3, "written back to durable storage synchronously with the
in-memory update"). -/
structure DispatchState where
  name_map_key : Nat
  nvs_name_map_key : Nat
deriving DecidableEq

/-- Result of one dispatcher invocation: the state after, the frame passed
to the send callback (if any), and the log lines emitted. -/
structure DispatchResult where
  state : DispatchState
  sent : Option (List Nat)
  log : List RecvLog
deriving DecidableEq

/-- Bytes visible through a raw pointer `data` up to `size`, as a list. -/
def listOf (data : Nat → Nat) (size : Nat) : List Nat :=
  (List.range size).map data

/-- Pointer view of a concrete byte list (reads past the end yield 0). -/
def readFn (l : List Nat) : Nat → Nat := fun i => l.getD i 0

/-- Embeds handle_message (app_main.cpp lines 50-120).

`data`/`size` model the C pointer-plus-size pair: the pointer's underlying
storage (the 255-byte stack buffer of recv_task) extends past `size`, so
`data` is a total function and the read of `data[0]` at line 60 — which the
source performs before any size check — is visible as `data 0`.

The query branch mirrors lines 62-97: note that the source builds a local
`hr_device` from the `get_device()` result (lines 84-86) but never assigns
it to `resp.device`, so the marshalled response always carries an absent
device; the `device` argument is accordingly unused, as in the source.
The set branch mirrors lines 99-109: the in-memory key (via the callback of
line 235) and the durable key (app_nvs::set_name_map_key, line 107) are both
set to the decoded key. -/
def handle_message (data : Nat → Nat) (size : Nat)
    (callbacks : handle_message_callbacks_t)
    (own_addr : HrLoRa.addr_t) (device : Option blue.HeartMonitor)
    (st : DispatchState) : DispatchResult :=
  let is_cb_empty := !callbacks.send || !callbacks.get_device ||
                     !callbacks.set_name_map_key || !callbacks.get_name_map_key
  if is_cb_empty then ⟨st, none, [.cb_empty]⟩
  else
    let magic := data 0
    if magic = HrLoRa.query_device_by_mac.magic then
      match HrLoRa.query_device_by_mac.unmarshal (listOf data size) with
      | none => ⟨st, none, [.unmarshal_query_failed]⟩
      | some req =>
        if req.addr = HrLoRa.broadcast_addr ∨ req.addr = own_addr then
          let resp : HrLoRa.query_device_by_mac_response.t :=
            { repeater_addr := own_addr, key := st.name_map_key, device := none }
          let r := HrLoRa.query_device_by_mac_response.marshal resp (List.replicate 64 0)
          if r.1 = 0 then ⟨st, none, [.marshal_resp_failed]⟩
          else ⟨st, some (r.2.take r.1), []⟩
        else ⟨st, none, [.not_for_me req.addr]⟩
    else if magic = HrLoRa.set_name_map_key.magic then
      match HrLoRa.set_name_map_key.unmarshal (listOf data size) with
      | none => ⟨st, none, [.unmarshal_set_failed]⟩
      | some req => ⟨⟨req.key, req.key⟩, none, [.set_key_done req.key]⟩
    else if magic = HrLoRa.hr_data.magic ∨ magic = HrLoRa.query_device_by_mac_response.magic then
      ⟨st, none, []⟩
    else ⟨st, none, [.unknown_magic magic]⟩

/-- Embeds le16dec (used at app_main.cpp line 315): little-endian 16-bit
read at offset `off`. -/
def le16dec (data : Nat → Nat) (off : Nat) : Nat :=
  data off + 256 * data (off + 1)

/-- Embeds the heart-rate forward path scan_manager.on_data
(app_main.cpp lines 298-338), reduced to the LoRa transmit decision: returns
the frame handed to tryTransmit, or none when the path discards the payload.
`name_map_key` is the current in-memory key (`*name_map_key_ptr`, line 323).
The uint8_t cast of line 324 is the mod-256 reduction. -/
def on_data (name_map_key : Nat) (data : Nat → Nat) (size : Nat) : Option (List Nat) :=
  if size < 2 then none
  else
    let hr0 := if data 0 % 2 = 0 then data 1 else le16dec data 1
    let hr := if hr0 > 255 then 255 else hr0
    let hd : HrLoRa.hr_data.t := { key := name_map_key, hr := hr % 256 }
    let r := HrLoRa.hr_data.marshal hd (List.replicate 16 0)
    if r.1 = 0 then none else some (r.2.take r.1)

/-! ### Basic list lemmas used throughout -/

theorem length_listOf (data : Nat → Nat) (size : Nat) : (listOf data size).length = size := by
  simp [listOf]

theorem getD_listOf (data : Nat → Nat) (size i : Nat) (h : i < size) :
    (listOf data size).getD i 0 = data i := by
  simp [listOf, List.getD_eq_getElem?_getD, List.getElem?_map, List.getElem?_range, h]

theorem map_range_getD (l : List Nat) :
    (List.range l.length).map (fun i => l.getD i 0) = l := by
  apply List.ext_getElem
  · simp
  · intro i h1 h2
    simp [List.getD_eq_getElem?_getD, List.getElem?_eq_getElem, h2]

theorem take_writeBytes (b e : List Nat) :
    (HrLoRa.writeBytes b e).take e.length = e := by
  simp [HrLoRa.writeBytes, List.take_left]

theorem listOf_readFn (l : List Nat) : listOf (readFn l) l.length = l := by
  apply List.ext_getElem
  · simp [listOf]
  · intro i h1 h2
    simp [listOf, readFn, List.getD_eq_getElem, h2]

/-! ### Decode-of-encode lemmas for each kind -/

theorem hr_data_unmarshal_enc (k h : Nat) :
    HrLoRa.hr_data.unmarshal [HrLoRa.hr_data.magic, k, h] = some ⟨k, h⟩ := by
  simp [HrLoRa.hr_data.unmarshal, HrLoRa.hr_data.size_needed, HrLoRa.hr_data.magic, List.getD]

theorem query_unmarshal_enc (a : HrLoRa.addr_t) :
    HrLoRa.query_device_by_mac.unmarshal (HrLoRa.query_device_by_mac.magic :: a.toList) =
      some ⟨a⟩ := by
  simp [HrLoRa.query_device_by_mac.unmarshal, HrLoRa.query_device_by_mac.size_needed,
        HrLoRa.query_device_by_mac.magic, HrLoRa.addr_t.toList, List.getD]

theorem set_unmarshal_enc (k : Nat) :
    HrLoRa.set_name_map_key.unmarshal [HrLoRa.set_name_map_key.magic, k] = some ⟨k⟩ := by
  simp [HrLoRa.set_name_map_key.unmarshal, HrLoRa.set_name_map_key.size_needed,
        HrLoRa.set_name_map_key.magic, List.getD]

theorem resp_unmarshal_enc_none (ra : HrLoRa.addr_t) (k : Nat) :
    HrLoRa.query_device_by_mac_response.unmarshal
      (HrLoRa.query_device_by_mac_response.magic :: ra.toList ++
        k :: HrLoRa.query_device_by_mac_response.device_bytes none) =
      some ⟨ra, k, none⟩ := by
  simp [HrLoRa.query_device_by_mac_response.unmarshal,
        HrLoRa.query_device_by_mac_response.device_bytes,
        HrLoRa.query_device_by_mac_response.magic, HrLoRa.addr_t.toList, List.getD]

theorem resp_unmarshal_enc_some (ra da : HrLoRa.addr_t) (k : Nat) (nm : List Nat)
    (h : nm.length ≤ HrLoRa.hr_device.max_name_len) :
    HrLoRa.query_device_by_mac_response.unmarshal
      (HrLoRa.query_device_by_mac_response.magic :: ra.toList ++
        k :: HrLoRa.query_device_by_mac_response.device_bytes (some ⟨da, nm⟩)) =
      some ⟨ra, k, some ⟨da, nm⟩⟩ := by
  have ht : nm.take HrLoRa.hr_device.max_name_len = nm := List.take_of_length_le h
  have hlist : (HrLoRa.query_device_by_mac_response.magic :: ra.toList ++
      k :: HrLoRa.query_device_by_mac_response.device_bytes (some ⟨da, nm⟩)) =
      [HrLoRa.query_device_by_mac_response.magic, ra.a0, ra.a1, ra.a2, ra.a3, ra.a4, ra.a5,
       k, 1, da.a0, da.a1, da.a2, da.a3, da.a4, da.a5, nm.length] ++ nm := by
    simp [HrLoRa.query_device_by_mac_response.device_bytes, HrLoRa.addr_t.toList, ht]
  rw [hlist]
  unfold HrLoRa.query_device_by_mac_response.unmarshal
  rw [if_neg (by simp)]
  rw [if_neg (by simp [HrLoRa.query_device_by_mac_response.magic, List.getD])]
  simp only [List.getD_append, List.getD, List.length_append, List.length_cons]
  norm_num

/-! ### Validity of field values and the round-trip property -/

/-- Byte-range side condition: the C field type is uint8_t. -/
def byte_ok (n : Nat) : Prop := n ≤ 255

/-- All six bytes of an address are in byte range. -/
def addr_ok (a : HrLoRa.addr_t) : Prop :=
  byte_ok a.a0 ∧ byte_ok a.a1 ∧ byte_ok a.a2 ∧ byte_ok a.a3 ∧ byte_ok a.a4 ∧ byte_ok a.a5

/-- Validity of an optional device field: address and name bytes in range,
name within the bounded field length. -/
def device_ok : Option HrLoRa.hr_device.t → Prop
  | none => True
  | some d => addr_ok d.addr ∧ d.name.length ≤ HrLoRa.hr_device.max_name_len ∧
              ∀ b ∈ d.name, byte_ok b

/-- Valid field values for each message kind (spec section 3). -/
def msg_valid : HrLoRa.hr_lora_msg.t → Prop
  | .hr_data d => byte_ok d.key ∧ byte_ok d.hr
  | .query_device_by_mac q => addr_ok q.addr
  | .query_device_by_mac_response r => addr_ok r.repeater_addr ∧ byte_ok r.key ∧ device_ok r.device
  | .set_name_map_key s => byte_ok s.key

/-- Round trip through a sufficiently large (64-byte) buffer: the encode
succeeds and decoding the written prefix restores the message. -/
def roundtrip_ok (m : HrLoRa.hr_lora_msg.t) : Prop :=
  (HrLoRa.hr_lora_msg.marshal m (List.replicate 64 0)).1 ≠ 0 ∧
  HrLoRa.hr_lora_msg.unmarshal
    ((HrLoRa.hr_lora_msg.marshal m (List.replicate 64 0)).2.take
      (HrLoRa.hr_lora_msg.marshal m (List.replicate 64 0)).1) = some m

/-- C4: decoding the 3-byte frame [0x63, 0x05, 0x48] through the tagged entry
point yields the HeartRate message with key 5 and hr 72, and re-encoding that
message yields exactly the same 3 bytes. -/
theorem c4_heart_rate_frame_example :
    HrLoRa.hr_lora_msg.unmarshal [0x63, 0x05, 0x48] =
      some (HrLoRa.hr_lora_msg.t.hr_data ⟨5, 72⟩) ∧
    HrLoRa.hr_lora_msg.marshal (HrLoRa.hr_lora_msg.t.hr_data ⟨5, 72⟩)
        (List.replicate 3 0) = (3, [0x63, 0x05, 0x48]) := by
  decide

/-- C5: for every message of each of the four kinds with valid field values
(boundaries hr = 0 and hr = 255 included), encoding into a sufficiently large
buffer and decoding the written bytes yields the message again. -/
theorem c5_roundtrip (m : HrLoRa.hr_lora_msg.t) (h : msg_valid m) : roundtrip_ok m := by
  cases m with
  | hr_data d =>
    constructor
    · simp [HrLoRa.hr_lora_msg.marshal, HrLoRa.hr_data.marshal, HrLoRa.hr_data.size_needed]
    · simp [HrLoRa.hr_lora_msg.marshal, HrLoRa.hr_data.marshal, HrLoRa.hr_data.size_needed,
            HrLoRa.writeBytes, HrLoRa.hr_lora_msg.unmarshal, HrLoRa.hr_data.unmarshal,
            HrLoRa.hr_data.magic, List.getD]
  | query_device_by_mac q =>
    constructor
    · simp [HrLoRa.hr_lora_msg.marshal, HrLoRa.query_device_by_mac.marshal,
            HrLoRa.query_device_by_mac.size_needed]
    · simp [HrLoRa.hr_lora_msg.marshal, HrLoRa.query_device_by_mac.marshal,
            HrLoRa.query_device_by_mac.size_needed, HrLoRa.writeBytes,
            HrLoRa.hr_lora_msg.unmarshal, HrLoRa.query_device_by_mac.unmarshal,
            HrLoRa.query_device_by_mac.magic, HrLoRa.hr_data.magic,
            HrLoRa.addr_t.toList, List.getD]
  | set_name_map_key s =>
    constructor
    · simp [HrLoRa.hr_lora_msg.marshal, HrLoRa.set_name_map_key.marshal,
            HrLoRa.set_name_map_key.size_needed]
    · simp [HrLoRa.hr_lora_msg.marshal, HrLoRa.set_name_map_key.marshal,
            HrLoRa.set_name_map_key.size_needed, HrLoRa.writeBytes,
            HrLoRa.hr_lora_msg.unmarshal, HrLoRa.set_name_map_key.unmarshal,
            HrLoRa.set_name_map_key.magic, HrLoRa.hr_data.magic,
            HrLoRa.query_device_by_mac.magic,
            HrLoRa.query_device_by_mac_response.magic, List.getD]
  | query_device_by_mac_response r =>
    rcases r with ⟨ra, k, dev⟩
    cases dev with
    | none =>
      constructor
      · simp [HrLoRa.hr_lora_msg.marshal, HrLoRa.query_device_by_mac_response.marshal,
              HrLoRa.query_device_by_mac_response.size_needed,
              HrLoRa.query_device_by_mac_response.device_bytes]
      · have henc := resp_unmarshal_enc_none ra k
        simp [HrLoRa.hr_lora_msg.marshal, HrLoRa.query_device_by_mac_response.marshal,
              HrLoRa.query_device_by_mac_response.size_needed,
              HrLoRa.query_device_by_mac_response.device_bytes, HrLoRa.writeBytes,
              HrLoRa.hr_lora_msg.unmarshal, HrLoRa.addr_t.toList, List.getD,
              HrLoRa.hr_data.magic, HrLoRa.query_device_by_mac.magic,
              HrLoRa.query_device_by_mac_response.magic] at henc ⊢
        exact henc
    | some d =>
      rcases d with ⟨da, nm⟩
      simp only [msg_valid, device_ok] at h
      have hv : nm.length ≤ HrLoRa.hr_device.max_name_len := h.2.2.2.1
      have ht : nm.take HrLoRa.hr_device.max_name_len = nm := List.take_of_length_le hv
      have hsz : HrLoRa.query_device_by_mac_response.size_needed ⟨ra, k, some ⟨da, nm⟩⟩ =
          (HrLoRa.query_device_by_mac_response.magic :: ra.toList ++
            k :: HrLoRa.query_device_by_mac_response.device_bytes (some ⟨da, nm⟩)).length := by
        simp [HrLoRa.query_device_by_mac_response.size_needed, HrLoRa.addr_t.toList,
              HrLoRa.query_device_by_mac_response.device_bytes, ht]
        omega
      have hlen64 : ¬ ((List.replicate (64:Nat) (0:Nat)).length <
          HrLoRa.query_device_by_mac_response.size_needed ⟨ra, k, some ⟨da, nm⟩⟩) := by
        have : nm.length ≤ 16 := hv
        simp [HrLoRa.query_device_by_mac_response.size_needed, HrLoRa.addr_t.toList,
              HrLoRa.query_device_by_mac_response.device_bytes, ht]
        omega
      constructor
      · simp only [HrLoRa.hr_lora_msg.marshal, HrLoRa.query_device_by_mac_response.marshal]
        rw [if_neg hlen64]
        simp [HrLoRa.query_device_by_mac_response.size_needed]
      · simp only [HrLoRa.hr_lora_msg.marshal, HrLoRa.query_device_by_mac_response.marshal]
        rw [if_neg hlen64]
        rw [hsz, take_writeBytes]
        have henc := resp_unmarshal_enc_some ra da k nm hv
        have hmap := congrArg
          (Option.map HrLoRa.hr_lora_msg.t.query_device_by_mac_response) henc
        simp [HrLoRa.hr_lora_msg.unmarshal, List.getD, HrLoRa.hr_data.magic,
              HrLoRa.query_device_by_mac.magic, HrLoRa.query_device_by_mac_response.magic,
              HrLoRa.addr_t.toList,
              HrLoRa.query_device_by_mac_response.device_bytes, ht] at hmap ⊢
        exact hmap

/-- Witness for C5: concrete round trips for all four kinds, with the hr
boundary values 0 and 255. -/
theorem c5_roundtrip_witness :
    roundtrip_ok (.hr_data ⟨1, 255⟩) ∧ roundtrip_ok (.hr_data ⟨2, 0⟩) ∧
    roundtrip_ok (.query_device_by_mac ⟨⟨1, 2, 3, 4, 5, 6⟩⟩) ∧
    roundtrip_ok (.query_device_by_mac_response
      ⟨⟨1, 2, 3, 4, 5, 6⟩, 7, some ⟨⟨9, 9, 9, 9, 9, 9⟩, [72, 73]⟩⟩) ∧
    roundtrip_ok (.set_name_map_key ⟨5⟩) :=
  ⟨c5_roundtrip _ (by norm_num [msg_valid, byte_ok]),
   c5_roundtrip _ (by norm_num [msg_valid, byte_ok]),
   c5_roundtrip _ (by norm_num [msg_valid, addr_ok, byte_ok]),
   c5_roundtrip _ (by norm_num [msg_valid, device_ok, addr_ok, byte_ok,
     HrLoRa.hr_device.max_name_len]),
   c5_roundtrip _ (by norm_num [msg_valid, byte_ok])⟩

/-! ### Inversion lemmas for successful decodes -/

/-- Inversion of a successful query decode: the buffer had at least 7 bytes
and began with the query discriminant. -/
theorem query_unmarshal_inv (l : List Nat) (a : HrLoRa.addr_t)
    (h : HrLoRa.query_device_by_mac.unmarshal l = some ⟨a⟩) :
    7 ≤ l.length ∧ l.getD 0 0 = HrLoRa.query_device_by_mac.magic := by
  unfold HrLoRa.query_device_by_mac.unmarshal HrLoRa.query_device_by_mac.size_needed at h
  split at h
  · exact absurd h (by simp)
  · split at h
    · exact absurd h (by simp)
    · rename_i h1 h2
      exact ⟨by omega, by simpa using h2⟩


/-- Inversion of a successful set_name_map_key decode: the buffer had at
least 2 bytes, began with the set discriminant, and byte 1 is the key. -/
theorem set_unmarshal_inv (l : List Nat) (k : Nat)
    (h : HrLoRa.set_name_map_key.unmarshal l = some ⟨k⟩) :
    2 ≤ l.length ∧ l.getD 0 0 = HrLoRa.set_name_map_key.magic ∧ l.getD 1 0 = k := by
  unfold HrLoRa.set_name_map_key.unmarshal HrLoRa.set_name_map_key.size_needed at h
  split at h
  · exact absurd h (by simp)
  · split at h
    · exact absurd h (by simp)
    · rename_i h1 h2
      have hk : l.getD 1 0 = k := by simpa using h
      exact ⟨by omega, by simpa using h2, hk⟩


/-- Bytes read through the pointer view of a list are bounded by any bound
on the list entries (reads past the end yield 0). -/
theorem readFn_le_of_forall (l : List Nat) (c : Nat) (hl : ∀ b ∈ l, b ≤ c) (i : Nat) :
    readFn l i ≤ c := by
  rw [readFn]
  by_cases hi : i < l.length
  · rw [List.getD_eq_getElem l 0 hi]
    exact hl _ (l.getElem_mem hi)
  · rw [List.getD_eq_default l 0 (by omega)]
    exact Nat.zero_le c


/-- Helper: a QueryByAddress carrying the broadcast address makes the
dispatcher send exactly the marshalled response frame built from the node's
own address and the current in-memory name-map key, with no device part. -/
theorem broadcast_query_sent (data : Nat → Nat) (size : Nat) (st : DispatchState)
    (own : HrLoRa.addr_t) (dev : Option blue.HeartMonitor)
    (h : HrLoRa.query_device_by_mac.unmarshal (listOf data size) =
      some ⟨HrLoRa.broadcast_addr⟩) :
    (handle_message data size ⟨true, true, true, true⟩ own dev st).sent =
      some (HrLoRa.query_device_by_mac_response.magic :: own.toList ++
        st.name_map_key :: HrLoRa.query_device_by_mac_response.device_bytes none) := by
  obtain ⟨hsz, hm⟩ := query_unmarshal_inv _ _ h
  rw [length_listOf] at hsz
  have hd0 : data 0 = HrLoRa.query_device_by_mac.magic :=
    (getD_listOf data size 0 (by omega)).symm.trans hm
  have hmar : HrLoRa.query_device_by_mac_response.marshal ⟨own, st.name_map_key, none⟩
      (List.replicate 64 0) =
      (9, HrLoRa.writeBytes (List.replicate 64 0)
        (HrLoRa.query_device_by_mac_response.magic :: own.toList ++
          st.name_map_key :: HrLoRa.query_device_by_mac_response.device_bytes none)) := by
    rw [HrLoRa.query_device_by_mac_response.marshal]
    rw [if_neg (by simp [HrLoRa.query_device_by_mac_response.size_needed,
          HrLoRa.query_device_by_mac_response.device_bytes])]
    simp [HrLoRa.query_device_by_mac_response.size_needed,
          HrLoRa.query_device_by_mac_response.device_bytes]
  have h9 : (HrLoRa.query_device_by_mac_response.magic :: own.toList ++
      st.name_map_key :: HrLoRa.query_device_by_mac_response.device_bytes none).length = 9 := by
    simp [HrLoRa.addr_t.toList, HrLoRa.query_device_by_mac_response.device_bytes]
  have htake : (HrLoRa.writeBytes (List.replicate 64 0)
      (HrLoRa.query_device_by_mac_response.magic :: own.toList ++
        st.name_map_key :: HrLoRa.query_device_by_mac_response.device_bytes none)).take 9 =
      HrLoRa.query_device_by_mac_response.magic :: own.toList ++
        st.name_map_key :: HrLoRa.query_device_by_mac_response.device_bytes none := by
    rw [← h9, take_writeBytes]
  rw [handle_message]
  rw [if_neg (by decide)]
  rw [hd0, if_pos rfl, h]
  dsimp only
  rw [if_pos (Or.inl rfl)]
  rw [hmar]
  rw [if_neg (by simp)]
  show some (List.take 9 (HrLoRa.writeBytes (List.replicate 64 0)
      (HrLoRa.query_device_by_mac_response.magic :: own.toList ++
        st.name_map_key :: HrLoRa.query_device_by_mac_response.device_bytes none))) = _
  rw [htake]


/-- C1 (code bug evaluation): on a broadcast QueryByAddress with
`get_device()` returning a device, the dispatcher's outgoing response still
decodes with an empty device field — the local hr_device built at
app_main.cpp lines 84-86 is never assigned to `resp.device`. -/
theorem c1_query_response_drops_device :
    (handle_message (readFn (HrLoRa.query_device_by_mac.magic ::
        HrLoRa.broadcast_addr.toList)) 7 ⟨true, true, true, true⟩ ⟨1, 2, 3, 4, 5, 6⟩
        (some ⟨⟨9, 8, 7, 6, 5, 4⟩, [104, 105]⟩) ⟨7, 0⟩).sent.map
      HrLoRa.query_device_by_mac_response.unmarshal =
      some (some ⟨⟨1, 2, 3, 4, 5, 6⟩, 7, none⟩) := by
  decide


/-- C2: a decoded SetNameMapKey{key=K} sets both the in-memory and the
durable name-map key to K and sends nothing; a subsequent broadcast
QueryByAddress response then reports K; a SetNameMapKey frame that fails to
decode leaves the whole state unchanged. -/
theorem c2_set_name_map_key_persistence :
    (∀ (data : Nat → Nat) (size : Nat) (st : DispatchState) (own : HrLoRa.addr_t)
       (dev : Option blue.HeartMonitor) (K : Nat),
       HrLoRa.set_name_map_key.unmarshal (listOf data size) = some ⟨K⟩ →
       handle_message data size ⟨true, true, true, true⟩ own dev st =
         ⟨⟨K, K⟩, none, [.set_key_done K]⟩) ∧
    (∀ (data : Nat → Nat) (size : Nat) (st : DispatchState) (own : HrLoRa.addr_t)
       (dev dev2 : Option blue.HeartMonitor) (K : Nat),
       HrLoRa.set_name_map_key.unmarshal (listOf data size) = some ⟨K⟩ →
       ((handle_message (readFn (HrLoRa.query_device_by_mac.magic ::
             HrLoRa.broadcast_addr.toList)) 7 ⟨true, true, true, true⟩ own dev2
           (handle_message data size ⟨true, true, true, true⟩ own dev st).state).sent).map
         HrLoRa.query_device_by_mac_response.unmarshal = some (some ⟨own, K, none⟩)) ∧
    (∀ (data : Nat → Nat) (size : Nat) (st : DispatchState) (own : HrLoRa.addr_t)
       (dev : Option blue.HeartMonitor),
       data 0 = HrLoRa.set_name_map_key.magic →
       HrLoRa.set_name_map_key.unmarshal (listOf data size) = none →
       handle_message data size ⟨true, true, true, true⟩ own dev st =
         ⟨st, none, [.unmarshal_set_failed]⟩) := by
  have hset : ∀ (data : Nat → Nat) (size : Nat) (st : DispatchState) (own : HrLoRa.addr_t)
      (dev : Option blue.HeartMonitor) (K : Nat),
      HrLoRa.set_name_map_key.unmarshal (listOf data size) = some ⟨K⟩ →
      handle_message data size ⟨true, true, true, true⟩ own dev st =
        ⟨⟨K, K⟩, none, [.set_key_done K]⟩ := by
    intro data size st own dev K h
    obtain ⟨hsz, hm, -⟩ := set_unmarshal_inv _ _ h
    rw [length_listOf] at hsz
    have hd0 : data 0 = HrLoRa.set_name_map_key.magic :=
      (getD_listOf data size 0 (by omega)).symm.trans hm
    simp [handle_message, hd0, h, HrLoRa.set_name_map_key.magic,
          HrLoRa.query_device_by_mac.magic]
  refine ⟨hset, fun data size st own dev dev2 K h => ?_,
          fun data size st own dev hd0 h => ?_⟩
  · rw [hset data size st own dev K h]
    have hq : HrLoRa.query_device_by_mac.unmarshal (listOf (readFn
        (HrLoRa.query_device_by_mac.magic :: HrLoRa.broadcast_addr.toList)) 7) =
        some ⟨HrLoRa.broadcast_addr⟩ := by decide
    rw [broadcast_query_sent _ _ _ _ _ hq]
    rw [Option.map_some']
    rw [resp_unmarshal_enc_none own K]
  · simp [handle_message, hd0, h, HrLoRa.set_name_map_key.magic,
          HrLoRa.query_device_by_mac.magic]


/-- Witness for C2: the three parts at concrete frames — set key to 9,
observe 9 in the following query response, and a 1-byte truncated set frame
changing nothing. -/
theorem c2_set_name_map_key_persistence_witness :
    handle_message (readFn [HrLoRa.set_name_map_key.magic, 9]) 2
      ⟨true, true, true, true⟩ ⟨1, 1, 1, 1, 1, 1⟩ none ⟨1, 2⟩ =
      ⟨⟨9, 9⟩, none, [.set_key_done 9]⟩ ∧
    ((handle_message (readFn (HrLoRa.query_device_by_mac.magic ::
        HrLoRa.broadcast_addr.toList)) 7 ⟨true, true, true, true⟩ ⟨1, 1, 1, 1, 1, 1⟩ none
        (handle_message (readFn [HrLoRa.set_name_map_key.magic, 9]) 2
          ⟨true, true, true, true⟩ ⟨1, 1, 1, 1, 1, 1⟩ none ⟨1, 2⟩).state).sent).map
      HrLoRa.query_device_by_mac_response.unmarshal =
      some (some ⟨⟨1, 1, 1, 1, 1, 1⟩, 9, none⟩) ∧
    handle_message (readFn [HrLoRa.set_name_map_key.magic]) 1
      ⟨true, true, true, true⟩ ⟨1, 1, 1, 1, 1, 1⟩ none ⟨1, 2⟩ =
      ⟨⟨1, 2⟩, none, [.unmarshal_set_failed]⟩ :=
  ⟨c2_set_name_map_key_persistence.1 _ 2 ⟨1, 2⟩ _ none 9 (by decide),
   c2_set_name_map_key_persistence.2.1 _ 2 ⟨1, 2⟩ _ none none 9 (by decide),
   c2_set_name_map_key_persistence.2.2 _ 1 ⟨1, 2⟩ _ none (by decide) (by decide)⟩


/-- C3 (code bug evaluation): a size-0 frame causes no state change and no
send, but the dispatcher is not a no-op on the buffer — it branches on the
residual byte `data 0` (app_main.cpp line 60 reads `data[0]` before any size
check), so two size-0 receptions differing only in that residual byte
produce different results. -/
theorem c3_size_zero_frame :
    (∀ (data : Nat → Nat) (own : HrLoRa.addr_t) (dev : Option blue.HeartMonitor)
       (st : DispatchState),
       (handle_message data 0 ⟨true, true, true, true⟩ own dev st).state = st ∧
       (handle_message data 0 ⟨true, true, true, true⟩ own dev st).sent = none) ∧
    handle_message (fun _ => 200) 0 ⟨true, true, true, true⟩ ⟨0, 0, 0, 0, 0, 0⟩ none ⟨0, 0⟩ ≠
      handle_message (fun _ => 201) 0 ⟨true, true, true, true⟩ ⟨0, 0, 0, 0, 0, 0⟩ none ⟨0, 0⟩ := by
  constructor
  · intro data own dev st
    by_cases h1 : data 0 = HrLoRa.query_device_by_mac.magic
    · simp [handle_message, h1, HrLoRa.query_device_by_mac.unmarshal,
            HrLoRa.query_device_by_mac.size_needed, listOf]
    · by_cases h2 : data 0 = HrLoRa.set_name_map_key.magic
      · simp [handle_message, h1, h2, HrLoRa.set_name_map_key.unmarshal,
              HrLoRa.set_name_map_key.size_needed, listOf,
              HrLoRa.set_name_map_key.magic, HrLoRa.query_device_by_mac.magic]
      · by_cases h3 : data 0 = HrLoRa.hr_data.magic ∨
            data 0 = HrLoRa.query_device_by_mac_response.magic
        · simp [handle_message, h1, h2, h3]
        · simp [handle_message, h1, h2, h3]
  · decide


/-- C6: a QueryByAddress carrying the broadcast address always yields an
outgoing message; one carrying an address equal to neither broadcast nor the
node's own address never does. -/
theorem c6_addressing :
    (∀ (data : Nat → Nat) (size : Nat) (st : DispatchState) (own : HrLoRa.addr_t)
       (dev : Option blue.HeartMonitor),
       HrLoRa.query_device_by_mac.unmarshal (listOf data size) = some ⟨HrLoRa.broadcast_addr⟩ →
       (handle_message data size ⟨true, true, true, true⟩ own dev st).sent.isSome) ∧
    (∀ (data : Nat → Nat) (size : Nat) (st : DispatchState) (own : HrLoRa.addr_t)
       (dev : Option blue.HeartMonitor) (a : HrLoRa.addr_t),
       HrLoRa.query_device_by_mac.unmarshal (listOf data size) = some ⟨a⟩ →
       a ≠ HrLoRa.broadcast_addr → a ≠ own →
       (handle_message data size ⟨true, true, true, true⟩ own dev st).sent = none) := by
  constructor
  · intro data size st own dev h
    obtain ⟨hsz, hm⟩ := query_unmarshal_inv _ _ h
    rw [length_listOf] at hsz
    have hd0 : data 0 = HrLoRa.query_device_by_mac.magic :=
      (getD_listOf data size 0 (by omega)).symm.trans hm
    simp [handle_message, hd0, h, HrLoRa.query_device_by_mac_response.marshal,
          HrLoRa.query_device_by_mac_response.size_needed,
          HrLoRa.query_device_by_mac_response.device_bytes]
  · intro data size st own dev a h ha hb
    obtain ⟨hsz, hm⟩ := query_unmarshal_inv _ _ h
    rw [length_listOf] at hsz
    have hd0 : data 0 = HrLoRa.query_device_by_mac.magic :=
      (getD_listOf data size 0 (by omega)).symm.trans hm
    simp [handle_message, hd0, h, ha, hb]


/-- Witness for C6: a concrete broadcast query is answered, a concrete
foreign-address query is not. -/
theorem c6_addressing_witness :
    (handle_message (readFn [HrLoRa.query_device_by_mac.magic, 255, 255, 255, 255, 255, 255])
      7 ⟨true, true, true, true⟩ ⟨1, 2, 3, 4, 5, 6⟩ none ⟨0, 0⟩).sent.isSome ∧
    (handle_message (readFn [HrLoRa.query_device_by_mac.magic, 9, 9, 9, 9, 9, 9])
      7 ⟨true, true, true, true⟩ ⟨1, 2, 3, 4, 5, 6⟩ none ⟨0, 0⟩).sent = none :=
  ⟨c6_addressing.1 _ 7 ⟨0, 0⟩ ⟨1, 2, 3, 4, 5, 6⟩ none (by decide),
   c6_addressing.2 _ 7 ⟨0, 0⟩ ⟨1, 2, 3, 4, 5, 6⟩ none ⟨9, 9, 9, 9, 9, 9⟩ (by decide)
     (by decide) (by decide)⟩


/-- C7: decode fails on every buffer shorter than the minimum frame size of
the kind implied by its first byte, and on every buffer whose first byte is
none of the four discriminants. -/
theorem c7_decode_min_size_unknown (l : List Nat) :
    (l.getD 0 0 = HrLoRa.hr_data.magic → l.length < HrLoRa.hr_data.size_needed →
       HrLoRa.hr_lora_msg.unmarshal l = none) ∧
    (l.getD 0 0 = HrLoRa.query_device_by_mac.magic →
       l.length < HrLoRa.query_device_by_mac.size_needed →
       HrLoRa.hr_lora_msg.unmarshal l = none) ∧
    (l.getD 0 0 = HrLoRa.query_device_by_mac_response.magic → l.length < 9 →
       HrLoRa.hr_lora_msg.unmarshal l = none) ∧
    (l.getD 0 0 = HrLoRa.set_name_map_key.magic →
       l.length < HrLoRa.set_name_map_key.size_needed →
       HrLoRa.hr_lora_msg.unmarshal l = none) ∧
    (l.getD 0 0 ≠ HrLoRa.hr_data.magic → l.getD 0 0 ≠ HrLoRa.query_device_by_mac.magic →
       l.getD 0 0 ≠ HrLoRa.query_device_by_mac_response.magic →
       l.getD 0 0 ≠ HrLoRa.set_name_map_key.magic →
       HrLoRa.hr_lora_msg.unmarshal l = none) := by
  by_cases hl : l.length < 1
  · have hz : HrLoRa.hr_lora_msg.unmarshal l = none := by
      simp [HrLoRa.hr_lora_msg.unmarshal, hl]
    exact ⟨fun _ _ => hz, fun _ _ => hz, fun _ _ => hz, fun _ _ => hz,
           fun _ _ _ _ => hz⟩
  · refine ⟨fun hm hlen => ?_, fun hm hlen => ?_, fun hm hlen => ?_, fun hm hlen => ?_,
           fun h1 h2 h3 h4 => ?_⟩
    · have hd : HrLoRa.hr_lora_msg.unmarshal l =
          (HrLoRa.hr_data.unmarshal l).map HrLoRa.hr_lora_msg.t.hr_data := by
        rw [HrLoRa.hr_lora_msg.unmarshal, if_neg hl, if_pos hm]
      rw [hd, HrLoRa.hr_data.unmarshal, if_pos hlen]
      rfl
    · have hd : HrLoRa.hr_lora_msg.unmarshal l =
          (HrLoRa.query_device_by_mac.unmarshal l).map
            HrLoRa.hr_lora_msg.t.query_device_by_mac := by
        rw [HrLoRa.hr_lora_msg.unmarshal, if_neg hl, if_neg (by rw [hm]; decide), if_pos hm]
      rw [hd, HrLoRa.query_device_by_mac.unmarshal, if_pos hlen]
      rfl
    · have hd : HrLoRa.hr_lora_msg.unmarshal l =
          (HrLoRa.query_device_by_mac_response.unmarshal l).map
            HrLoRa.hr_lora_msg.t.query_device_by_mac_response := by
        rw [HrLoRa.hr_lora_msg.unmarshal, if_neg hl, if_neg (by rw [hm]; decide),
            if_neg (by rw [hm]; decide), if_pos hm]
      rw [hd, HrLoRa.query_device_by_mac_response.unmarshal, if_pos hlen]
      rfl
    · have hd : HrLoRa.hr_lora_msg.unmarshal l =
          (HrLoRa.set_name_map_key.unmarshal l).map
            HrLoRa.hr_lora_msg.t.set_name_map_key := by
        rw [HrLoRa.hr_lora_msg.unmarshal, if_neg hl, if_neg (by rw [hm]; decide),
            if_neg (by rw [hm]; decide), if_neg (by rw [hm]; decide), if_pos hm]
      rw [hd, HrLoRa.set_name_map_key.unmarshal, if_pos hlen]
      rfl
    · rw [HrLoRa.hr_lora_msg.unmarshal, if_neg hl, if_neg h1, if_neg h2, if_neg h3, if_neg h4]


/-- Witness for C7: buffers exactly one byte shorter than each kind's
minimum size, and one with an unknown discriminant, all fail to decode. -/
theorem c7_decode_min_size_unknown_witness :
    HrLoRa.hr_lora_msg.unmarshal [0x63, 1] = none ∧
    HrLoRa.hr_lora_msg.unmarshal [0x64, 1, 2, 3, 4, 5] = none ∧
    HrLoRa.hr_lora_msg.unmarshal [0x65, 1, 2, 3, 4, 5, 6, 7] = none ∧
    HrLoRa.hr_lora_msg.unmarshal [0x66] = none ∧
    HrLoRa.hr_lora_msg.unmarshal [0x99, 1, 2] = none :=
  ⟨(c7_decode_min_size_unknown [0x63, 1]).1 (by decide) (by decide),
   (c7_decode_min_size_unknown [0x64, 1, 2, 3, 4, 5]).2.1 (by decide) (by decide),
   (c7_decode_min_size_unknown [0x65, 1, 2, 3, 4, 5, 6, 7]).2.2.1 (by decide) (by decide),
   (c7_decode_min_size_unknown [0x66]).2.2.2.1 (by decide) (by decide),
   (c7_decode_min_size_unknown [0x99, 1, 2]).2.2.2.2 (by decide) (by decide)
     (by decide) (by decide)⟩


/-- C8: for every message, encode on a buffer smaller than the kind's exact
required size returns 0 and leaves the buffer unchanged; otherwise it writes
the discriminant byte followed by the kind's fields in the fixed order,
leaves the rest of the buffer unchanged, and returns the bytes written. -/
theorem c8_encode_contract :
    (∀ (d : HrLoRa.hr_data.t) (b : List Nat),
       (b.length < 3 → HrLoRa.hr_lora_msg.marshal (.hr_data d) b = (0, b)) ∧
       (3 ≤ b.length → HrLoRa.hr_lora_msg.marshal (.hr_data d) b =
          (3, [HrLoRa.hr_data.magic, d.key, d.hr] ++ b.drop 3))) ∧
    (∀ (q : HrLoRa.query_device_by_mac.t) (b : List Nat),
       (b.length < 7 → HrLoRa.hr_lora_msg.marshal (.query_device_by_mac q) b = (0, b)) ∧
       (7 ≤ b.length → HrLoRa.hr_lora_msg.marshal (.query_device_by_mac q) b =
          (7, HrLoRa.query_device_by_mac.magic :: q.addr.toList ++ b.drop 7))) ∧
    (∀ (r : HrLoRa.query_device_by_mac_response.t) (b : List Nat),
       (b.length < HrLoRa.query_device_by_mac_response.size_needed r →
          HrLoRa.hr_lora_msg.marshal (.query_device_by_mac_response r) b = (0, b)) ∧
       (HrLoRa.query_device_by_mac_response.size_needed r ≤ b.length →
          HrLoRa.hr_lora_msg.marshal (.query_device_by_mac_response r) b =
            (HrLoRa.query_device_by_mac_response.size_needed r,
             HrLoRa.query_device_by_mac_response.magic :: r.repeater_addr.toList ++
               r.key :: HrLoRa.query_device_by_mac_response.device_bytes r.device ++
               b.drop (HrLoRa.query_device_by_mac_response.size_needed r)))) ∧
    (∀ (s : HrLoRa.set_name_map_key.t) (b : List Nat),
       (b.length < 2 → HrLoRa.hr_lora_msg.marshal (.set_name_map_key s) b = (0, b)) ∧
       (2 ≤ b.length → HrLoRa.hr_lora_msg.marshal (.set_name_map_key s) b =
          (2, [HrLoRa.set_name_map_key.magic, s.key] ++ b.drop 2))) := by
  refine ⟨fun d b => ⟨fun hlt => ?_, fun hge => ?_⟩,
          fun q b => ⟨fun hlt => ?_, fun hge => ?_⟩,
          fun r b => ⟨fun hlt => ?_, fun hge => ?_⟩,
          fun s b => ⟨fun hlt => ?_, fun hge => ?_⟩⟩
  · rw [HrLoRa.hr_lora_msg.marshal, HrLoRa.hr_data.marshal]
    simp only [HrLoRa.hr_data.size_needed]
    rw [if_pos hlt]
  · rw [HrLoRa.hr_lora_msg.marshal, HrLoRa.hr_data.marshal]
    simp only [HrLoRa.hr_data.size_needed]
    rw [if_neg (by omega)]
    rfl
  · rw [HrLoRa.hr_lora_msg.marshal, HrLoRa.query_device_by_mac.marshal]
    simp only [HrLoRa.query_device_by_mac.size_needed]
    rw [if_pos hlt]
  · rw [HrLoRa.hr_lora_msg.marshal, HrLoRa.query_device_by_mac.marshal]
    simp only [HrLoRa.query_device_by_mac.size_needed]
    rw [if_neg (by omega)]
    simp [HrLoRa.writeBytes, HrLoRa.addr_t.toList]
  · rw [HrLoRa.hr_lora_msg.marshal, HrLoRa.query_device_by_mac_response.marshal, if_pos hlt]
  · rw [HrLoRa.hr_lora_msg.marshal, HrLoRa.query_device_by_mac_response.marshal,
        if_neg (by omega)]
    have hlen : (HrLoRa.query_device_by_mac_response.magic :: r.repeater_addr.toList ++
        r.key :: HrLoRa.query_device_by_mac_response.device_bytes r.device).length =
        HrLoRa.query_device_by_mac_response.size_needed r := by
      simp [HrLoRa.addr_t.toList, HrLoRa.query_device_by_mac_response.size_needed]
      omega
    rw [HrLoRa.writeBytes, hlen]
  · rw [HrLoRa.hr_lora_msg.marshal, HrLoRa.set_name_map_key.marshal]
    simp only [HrLoRa.set_name_map_key.size_needed]
    rw [if_pos hlt]
  · rw [HrLoRa.hr_lora_msg.marshal, HrLoRa.set_name_map_key.marshal]
    simp only [HrLoRa.set_name_map_key.size_needed]
    rw [if_neg (by omega)]
    rfl


/-- Witness for C8: concrete failing and succeeding encodes for all four
kinds. -/
theorem c8_encode_contract_witness :
    HrLoRa.hr_lora_msg.marshal (.hr_data ⟨5, 72⟩) [1, 2] = (0, [1, 2]) ∧
    HrLoRa.hr_lora_msg.marshal (.hr_data ⟨5, 72⟩) [1, 2, 3, 4] =
      (3, [HrLoRa.hr_data.magic, 5, 72, 4]) ∧
    HrLoRa.hr_lora_msg.marshal (.query_device_by_mac ⟨⟨1, 2, 3, 4, 5, 6⟩⟩)
      [0, 0, 0, 0, 0, 0] = (0, [0, 0, 0, 0, 0, 0]) ∧
    HrLoRa.hr_lora_msg.marshal (.query_device_by_mac ⟨⟨1, 2, 3, 4, 5, 6⟩⟩)
      [0, 0, 0, 0, 0, 0, 0] = (7, [HrLoRa.query_device_by_mac.magic, 1, 2, 3, 4, 5, 6]) ∧
    HrLoRa.hr_lora_msg.marshal (.query_device_by_mac_response ⟨⟨1, 2, 3, 4, 5, 6⟩, 7, none⟩)
      (List.replicate 8 0) = (0, List.replicate 8 0) ∧
    HrLoRa.hr_lora_msg.marshal (.query_device_by_mac_response
        ⟨⟨1, 2, 3, 4, 5, 6⟩, 7, some ⟨⟨9, 9, 9, 9, 9, 9⟩, [65]⟩⟩)
      (List.replicate 17 0) =
      (17, [HrLoRa.query_device_by_mac_response.magic, 1, 2, 3, 4, 5, 6, 7, 1,
            9, 9, 9, 9, 9, 9, 1, 65]) ∧
    HrLoRa.hr_lora_msg.marshal (.set_name_map_key ⟨9⟩) [3] = (0, [3]) ∧
    HrLoRa.hr_lora_msg.marshal (.set_name_map_key ⟨9⟩) [3, 4] =
      (2, [HrLoRa.set_name_map_key.magic, 9]) :=
  ⟨(c8_encode_contract.1 ⟨5, 72⟩ [1, 2]).1 (by decide),
   (c8_encode_contract.1 ⟨5, 72⟩ [1, 2, 3, 4]).2 (by decide),
   (c8_encode_contract.2.1 ⟨⟨1, 2, 3, 4, 5, 6⟩⟩ [0, 0, 0, 0, 0, 0]).1 (by decide),
   (c8_encode_contract.2.1 ⟨⟨1, 2, 3, 4, 5, 6⟩⟩ [0, 0, 0, 0, 0, 0, 0]).2 (by decide),
   (c8_encode_contract.2.2.1 ⟨⟨1, 2, 3, 4, 5, 6⟩, 7, none⟩ (List.replicate 8 0)).1 (by decide),
   (c8_encode_contract.2.2.1 ⟨⟨1, 2, 3, 4, 5, 6⟩, 7, some ⟨⟨9, 9, 9, 9, 9, 9⟩, [65]⟩⟩
     (List.replicate 17 0)).2 (by decide),
   (c8_encode_contract.2.2.2 ⟨9⟩ [3]).1 (by decide),
   (c8_encode_contract.2.2.2 ⟨9⟩ [3, 4]).2 (by decide)⟩


/-- C9: with any of the four callbacks null, the dispatcher performs no side
effect on any input frame: state unchanged, nothing sent. -/
theorem c9_null_callbacks_no_effect (cbs : handle_message_callbacks_t)
    (h : cbs.send = false ∨ cbs.get_device = false ∨
         cbs.set_name_map_key = false ∨ cbs.get_name_map_key = false) :
    ∀ (data : Nat → Nat) (size : Nat) (own : HrLoRa.addr_t)
      (dev : Option blue.HeartMonitor) (st : DispatchState),
      handle_message data size cbs own dev st = ⟨st, none, [.cb_empty]⟩ := by
  intro data size own dev st
  have hcb : (!cbs.send || !cbs.get_device ||
              !cbs.set_name_map_key || !cbs.get_name_map_key) = true := by
    rcases h with h | h | h | h <;> simp [h]
  simp [handle_message, hcb]


/-- Witness for C9: a null send callback on a well-formed frame changes
nothing. -/
theorem c9_null_callbacks_no_effect_witness :
    handle_message (readFn [0x63, 1, 2]) 3 ⟨false, true, true, true⟩
      ⟨0, 0, 0, 0, 0, 0⟩ none ⟨3, 4⟩ = ⟨⟨3, 4⟩, none, [.cb_empty]⟩ :=
  c9_null_callbacks_no_effect ⟨false, true, true, true⟩ (Or.inl rfl)
    (readFn [0x63, 1, 2]) 3 ⟨0, 0, 0, 0, 0, 0⟩ none ⟨3, 4⟩


/-- C10: the heart-rate forward path discards payloads shorter than 2 bytes;
otherwise it reads an 8-bit rate when bit 0 of the flags byte is clear and a
16-bit little-endian rate when it is set, caps rates above 255 to 255, and
transmits a HeartRate frame carrying the current in-memory name-map key and
that rate. -/
theorem c10_hr_forward_path (key : Nat) (data : Nat → Nat) (size : Nat)
    (hbytes : ∀ i, data i ≤ 255) :
    (size < 2 → on_data key data size = none) ∧
    (2 ≤ size → data 0 % 2 = 0 →
       on_data key data size = some [HrLoRa.hr_data.magic, key, data 1]) ∧
    (2 ≤ size → data 0 % 2 = 1 →
       on_data key data size =
         some [HrLoRa.hr_data.magic, key, min (data 1 + 256 * data 2) 255]) := by
  refine ⟨fun hlt => ?_, fun hge hflag => ?_, fun hge hflag => ?_⟩
  · rw [on_data, if_pos hlt]
  · have hns : ¬ size < 2 := by omega
    have h1 : data 1 ≤ 255 := hbytes 1
    have hnc : ¬ data 1 > 255 := by omega
    have hmod : data 1 % 256 = data 1 := Nat.mod_eq_of_lt (by omega)
    simp [on_data, hns, hflag, hnc, hmod, HrLoRa.hr_data.marshal,
          HrLoRa.hr_data.size_needed, HrLoRa.hr_data.magic, HrLoRa.writeBytes]
  · have hns : ¬ size < 2 := by omega
    have hle : le16dec data 1 = data 1 + 256 * data 2 := by
      rw [le16dec]
    by_cases hbig : data 1 + 256 * data 2 > 255
    · have hmin : min (data 1 + 256 * data 2) 255 = 255 := by omega
      simp [on_data, hns, hflag, hle, hbig, hmin, HrLoRa.hr_data.marshal,
            HrLoRa.hr_data.size_needed, HrLoRa.hr_data.magic, HrLoRa.writeBytes]
    · have hmin : min (data 1 + 256 * data 2) 255 = data 1 + 256 * data 2 := by omega
      have hmod : (data 1 + 256 * data 2) % 256 = data 1 + 256 * data 2 :=
        Nat.mod_eq_of_lt (by omega)
      simp [on_data, hns, hflag, hle, hbig, hmin, hmod, HrLoRa.hr_data.marshal,
            HrLoRa.hr_data.size_needed, HrLoRa.hr_data.magic, HrLoRa.writeBytes]


/-- Witness for C10: a 1-byte payload is dropped; an 8-bit payload forwards
its rate; a 16-bit payload of 300 bpm is capped to 255. -/
theorem c10_hr_forward_path_witness :
    on_data 5 (readFn [1]) 1 = none ∧
    on_data 5 (readFn [0, 77]) 2 = some [HrLoRa.hr_data.magic, 5, 77] ∧
    on_data 5 (readFn [1, 44, 1]) 3 = some [HrLoRa.hr_data.magic, 5, 255] :=
  ⟨(c10_hr_forward_path 5 (readFn [1]) 1
      (readFn_le_of_forall [1] 255 (by decide))).1 (by decide),
   (c10_hr_forward_path 5 (readFn [0, 77]) 2
      (readFn_le_of_forall [0, 77] 255 (by decide))).2.1 (by decide) (by decide),
   (c10_hr_forward_path 5 (readFn [1, 44, 1]) 3
      (readFn_le_of_forall [1, 44, 1] 255 (by decide))).2.2 (by decide) (by decide)⟩
